import Mathlib

set_option maxRecDepth 10000

/-!
Shallow embedding of the `estrai-xml` invoice extraction pipeline
(`fattura_elettronica_parser.py` and `fattura_elettronica_parser_advanced.py`).

Conventions of the embedding:
* Python strings are Lean `String`s; the character-level helpers below model
  the exact Python string operations used by the source (`str.strip`,
  `str.replace(',', '.')`, `str.split('}')[0]`, `str.strip('{')`).
* Python floats are modelled as exact rationals `ℚ`; the source only ever
  produces floats by parsing short decimal literals, so no rounding issues
  arise in any statement proved here.
* `float(...)` / `int(...)` / `datetime.strptime(..., '%Y-%m-%d')` are
  modelled on their decimal-literal fragment (optional surrounding
  whitespace, optional sign, digits with at most one dot, optional
  exponent); the `inf`/`nan` keywords, underscore separators and non-ASCII
  digits accepted by CPython never occur in the inputs the claims are about.
* Fallible Python calls are modelled as `Option`/`Except` values; the
  `try/except` wrappers of the source become explicit `match`es on those.
-/

/-- Python whitespace characters handled by `str.strip()` (ASCII fragment). -/
def pyIsSpace (c : Char) : Bool :=
  c = ' ' ∨ c = '\t' ∨ c = '\n' ∨ c = '\r' ∨ c = Char.ofNat 11 ∨ c = Char.ofNat 12

/-- ASCII decimal digit test, as used by CPython's number parsing. -/
def pyIsDigit (c : Char) : Bool := '0' ≤ c ∧ c ≤ '9'

/-- Drop the longest suffix of `cs` all of whose characters satisfy `p`. -/
def dropLastWhile (p : Char → Bool) (cs : List Char) : List Char :=
  (cs.reverse.dropWhile p).reverse

/-- Drop matching characters from both ends (Python `str.strip(chars)`). -/
def stripBothChars (p : Char → Bool) (cs : List Char) : List Char :=
  dropLastWhile p (cs.dropWhile p)

/-- Python `str.strip()` (no argument): strip whitespace from both ends. -/
def pystrip (s : String) : String := ⟨stripBothChars pyIsSpace s.data⟩

/-- Python `value.replace(',', '.')`: every comma becomes a dot (for a
single-character pattern `str.replace` is exactly a character map). -/
def replaceCommaDot (s : String) : String :=
  ⟨s.data.map (fun c => if c = ',' then '.' else c)⟩

/-- Numeric value of a list of ASCII digits, most significant first. -/
def digitsVal (ds : List Char) : Nat :=
  ds.foldl (fun a c => 10 * a + (c.toNat - 48)) 0

/-- Mantissa of a CPython float literal: `digits [. digits]` or `. digits`;
returns the digit value, the number of fractional digits, and the
unconsumed rest (the value is `digits / 10 ^ fracLen`). -/
def parseMantissa (cs : List Char) : Option ((Nat × Nat) × List Char) :=
  let ip := cs.takeWhile pyIsDigit
  let r1 := cs.dropWhile pyIsDigit
  match r1 with
  | '.' :: r2 =>
    let fp := r2.takeWhile pyIsDigit
    let r3 := r2.dropWhile pyIsDigit
    if ip = [] ∧ fp = [] then none
    else some ((digitsVal (ip ++ fp), fp.length), r3)
  | _ => if ip = [] then none else some ((digitsVal ip, 0), r1)

/-- Exponent part of a CPython float literal (after the `e`/`E`): adjusts
the `(digits, fracLen)` pair so that the value stays `digits / 10 ^ fracLen`. -/
def parseExpPart (mant : Nat × Nat) (cs : List Char) : Option (Nat × Nat) :=
  let (sgnNeg, cs1) :=
    match cs with
    | '+' :: r => (false, r)
    | '-' :: r => (true, r)
    | r => (false, r)
  let ds := cs1.takeWhile pyIsDigit
  let rest := cs1.dropWhile pyIsDigit
  if ds = [] ∨ rest ≠ [] then none
  else if sgnNeg then some (mant.1, mant.2 + digitsVal ds)
  else some (mant.1 * 10 ^ digitsVal ds, mant.2)

/-- CPython `float(str)` on its decimal-literal fragment: optional
whitespace, optional sign, mantissa, optional exponent; `none` models
`ValueError`.  The result is assembled with a single `mkRat`. -/
def pyFloatChars (cs0 : List Char) : Option ℚ :=
  let cs := stripBothChars pyIsSpace cs0
  let (neg, cs1) :=
    match cs with
    | '+' :: r => (false, r)
    | '-' :: r => (true, r)
    | r => (false, r)
  match parseMantissa cs1 with
  | none => none
  | some (m, rest) =>
    let assemble : Nat × Nat → Option ℚ := fun nk =>
      some (mkRat (if neg then -(nk.1 : Int) else (nk.1 : Int)) (10 ^ nk.2))
    match rest with
    | [] => assemble m
    | 'e' :: r => (parseExpPart m r).bind assemble
    | 'E' :: r => (parseExpPart m r).bind assemble
    | _ => none

/-- CPython `float(str)` on Lean strings. -/
def pyFloat (s : String) : Option ℚ := pyFloatChars s.data

/-- CPython `int(str)`: optional whitespace, optional sign, digits;
`none` models `ValueError`. -/
def pyIntChars (cs0 : List Char) : Option Int :=
  let cs := stripBothChars pyIsSpace cs0
  let (neg, cs1) :=
    match cs with
    | '+' :: r => (false, r)
    | '-' :: r => (true, r)
    | r => (false, r)
  if cs1 ≠ [] ∧ cs1.all pyIsDigit then
    some (if neg then -(digitsVal cs1 : Int) else (digitsVal cs1 : Int))
  else none

/-- CPython `int(str)` on Lean strings. -/
def pyInt (s : String) : Option Int := pyIntChars s.data

/-- `parse_float` (`fattura_elettronica_parser.py` lines 140-144, and the
identical `InvoiceProcessor.parse_float`): `float(value.replace(',', '.'))
if value else 0.0`, with `ValueError` mapped to `0.0`. -/
def parse_float (value : String) : ℚ :=
  if value = "" then 0
  else
    match pyFloat (replaceCommaDot value) with
    | some q => q
    | none => 0

/-- `parse_int` (`fattura_elettronica_parser.py` lines 146-150, and the
identical `InvoiceProcessor.parse_int`). -/
def parse_int (value : String) : Int :=
  if value = "" then 0
  else
    match pyInt value with
    | some n => n
    | none => 0

/-- The ordered alternatives of CPython `_strptime`'s `%m` regex
`1[0-2]|0[1-9]|[1-9]`, each with the unconsumed rest. -/
def monthAlts (cs : List Char) : List (Nat × List Char) :=
  (match cs with
   | '1' :: c :: r => if '0' ≤ c ∧ c ≤ '2' then [(10 + (c.toNat - 48), r)] else []
   | _ => []) ++
  (match cs with
   | '0' :: c :: r => if '1' ≤ c ∧ c ≤ '9' then [(c.toNat - 48, r)] else []
   | _ => []) ++
  (match cs with
   | c :: r => if '1' ≤ c ∧ c ≤ '9' then [(c.toNat - 48, r)] else []
   | _ => [])

/-- The ordered alternatives of CPython `_strptime`'s `%d` regex
`3[01]|[12]\d|0[1-9]|[1-9]`. -/
def dayAlts (cs : List Char) : List (Nat × List Char) :=
  (match cs with
   | '3' :: c :: r => if c = '0' ∨ c = '1' then [(30 + (c.toNat - 48), r)] else []
   | _ => []) ++
  (match cs with
   | c :: c2 :: r =>
     if (c = '1' ∨ c = '2') ∧ pyIsDigit c2 then
       [((c.toNat - 48) * 10 + (c2.toNat - 48), r)]
     else []
   | _ => []) ++
  (match cs with
   | '0' :: c :: r => if '1' ≤ c ∧ c ≤ '9' then [(c.toNat - 48, r)] else []
   | _ => []) ++
  (match cs with
   | c :: r => if '1' ≤ c ∧ c ≤ '9' then [(c.toNat - 48, r)] else []
   | _ => [])

/-- Full match of `strptime`'s compiled pattern for `'%Y-%m-%d'`
(`(?P<Y>\d\d\d\d)-%m-%d` anchored at both ends), with the regex engine's
ordered-alternation backtracking. -/
def parseYmdChars (cs : List Char) : Option (Nat × Nat × Nat) :=
  match cs with
  | y1 :: y2 :: y3 :: y4 :: '-' :: rest =>
    if pyIsDigit y1 ∧ pyIsDigit y2 ∧ pyIsDigit y3 ∧ pyIsDigit y4 then
      let y := digitsVal [y1, y2, y3, y4]
      (monthAlts rest).findSome? (fun mr =>
        match mr.2 with
        | '-' :: r2 =>
          (dayAlts r2).findSome? (fun dr =>
            if dr.2 = [] then some (y, mr.1, dr.1) else none)
        | _ => none)
    else none
  | _ => none

/-- Gregorian leap year, as validated by `datetime.date`. -/
def isLeapYear (y : Nat) : Bool := y % 4 = 0 ∧ (y % 100 ≠ 0 ∨ y % 400 = 0)

/-- Days in a month, as validated by `datetime.date`. -/
def daysInMonth (y m : Nat) : Nat :=
  if m = 2 then (if isLeapYear y then 29 else 28)
  else if m = 4 ∨ m = 6 ∨ m = 9 ∨ m = 11 then 30
  else 31

/-- `datetime.strptime(s, '%Y-%m-%d')`: regex match plus `datetime`'s
calendar validation (year ≥ 1, day within the month); `none` models
`ValueError`. -/
def strptimeYmd (s : String) : Option (Nat × Nat × Nat) :=
  match parseYmdChars s.data with
  | some (y, m, d) => if 1 ≤ y ∧ d ≤ daysInMonth y m then some (y, m, d) else none
  | none => none

/-- Two-digit zero padding, as in `date.isoformat()`. -/
def pad2 (n : Nat) : String := if n < 10 then "0" ++ toString n else toString n

/-- Four-digit zero padding, as in `date.isoformat()`. -/
def pad4 (n : Nat) : String :=
  if n < 10 then "000" ++ toString n
  else if n < 100 then "00" ++ toString n
  else if n < 1000 then "0" ++ toString n
  else toString n

/-- `date(y, m, d).isoformat()`. -/
def isoFmt (y m d : Nat) : String := pad4 y ++ "-" ++ pad2 m ++ "-" ++ pad2 d

/-- `format_date` (`fattura_elettronica_parser.py` lines 152-156):
`strptime(date_str, '%Y-%m-%d').date().isoformat()`, returning the
original string on `ValueError`. -/
def format_date (date_str : String) : String :=
  match strptimeYmd date_str with
  | some (y, m, d) => isoFmt y m d
  | none => date_str

namespace InvoiceProcessor

/-- `InvoiceProcessor.parse_date` (`fattura_elettronica_parser_advanced.py`
lines 300-305): same parse, but `ValueError`/`TypeError` yields `None`
(not the original string). -/
def parse_date (date_str : String) : Option String :=
  match strptimeYmd date_str with
  | some (y, m, d) => some (isoFmt y m d)
  | none => none

end InvoiceProcessor

/-! ## The nested data model

`Val` models the Python values that flow through the extraction pipeline:
`None`, strings, ints, floats, lists and (insertion-ordered) dicts. -/

inductive Val where
  | vnull : Val
  | vstr (s : String) : Val
  | vbool (b : Bool) : Val
  | vint (n : Int) : Val
  | vfloat (q : ℚ) : Val
  | vlist (xs : List Val) : Val
  | vdict (m : List (String × Val)) : Val

mutual

/-- Decidable equality on `Val` (the nested inductive prevents deriving). -/
def decEqVal : (a b : Val) → Decidable (a = b)
  | .vnull, .vnull => isTrue rfl
  | .vstr s, .vstr t =>
    match decEq s t with
    | isTrue h => isTrue (congrArg Val.vstr h)
    | isFalse h => isFalse (fun e => h (Val.vstr.inj e))
  | .vbool a, .vbool b =>
    match decEq a b with
    | isTrue h => isTrue (congrArg Val.vbool h)
    | isFalse h => isFalse (fun e => h (Val.vbool.inj e))
  | .vint a, .vint b =>
    match decEq a b with
    | isTrue h => isTrue (congrArg Val.vint h)
    | isFalse h => isFalse (fun e => h (Val.vint.inj e))
  | .vfloat a, .vfloat b =>
    match decEq a b with
    | isTrue h => isTrue (congrArg Val.vfloat h)
    | isFalse h => isFalse (fun e => h (Val.vfloat.inj e))
  | .vlist xs, .vlist ys =>
    match decEqValList xs ys with
    | isTrue h => isTrue (congrArg Val.vlist h)
    | isFalse h => isFalse (fun e => h (Val.vlist.inj e))
  | .vdict m, .vdict n =>
    match decEqValDict m n with
    | isTrue h => isTrue (congrArg Val.vdict h)
    | isFalse h => isFalse (fun e => h (Val.vdict.inj e))
  | .vnull, .vstr _ => isFalse (fun e => Val.noConfusion e)
  | .vnull, .vbool _ => isFalse (fun e => Val.noConfusion e)
  | .vnull, .vint _ => isFalse (fun e => Val.noConfusion e)
  | .vnull, .vfloat _ => isFalse (fun e => Val.noConfusion e)
  | .vnull, .vlist _ => isFalse (fun e => Val.noConfusion e)
  | .vnull, .vdict _ => isFalse (fun e => Val.noConfusion e)
  | .vstr _, .vnull => isFalse (fun e => Val.noConfusion e)
  | .vstr _, .vbool _ => isFalse (fun e => Val.noConfusion e)
  | .vstr _, .vint _ => isFalse (fun e => Val.noConfusion e)
  | .vstr _, .vfloat _ => isFalse (fun e => Val.noConfusion e)
  | .vstr _, .vlist _ => isFalse (fun e => Val.noConfusion e)
  | .vstr _, .vdict _ => isFalse (fun e => Val.noConfusion e)
  | .vbool _, .vnull => isFalse (fun e => Val.noConfusion e)
  | .vbool _, .vstr _ => isFalse (fun e => Val.noConfusion e)
  | .vbool _, .vint _ => isFalse (fun e => Val.noConfusion e)
  | .vbool _, .vfloat _ => isFalse (fun e => Val.noConfusion e)
  | .vbool _, .vlist _ => isFalse (fun e => Val.noConfusion e)
  | .vbool _, .vdict _ => isFalse (fun e => Val.noConfusion e)
  | .vint _, .vnull => isFalse (fun e => Val.noConfusion e)
  | .vint _, .vstr _ => isFalse (fun e => Val.noConfusion e)
  | .vint _, .vbool _ => isFalse (fun e => Val.noConfusion e)
  | .vint _, .vfloat _ => isFalse (fun e => Val.noConfusion e)
  | .vint _, .vlist _ => isFalse (fun e => Val.noConfusion e)
  | .vint _, .vdict _ => isFalse (fun e => Val.noConfusion e)
  | .vfloat _, .vnull => isFalse (fun e => Val.noConfusion e)
  | .vfloat _, .vstr _ => isFalse (fun e => Val.noConfusion e)
  | .vfloat _, .vbool _ => isFalse (fun e => Val.noConfusion e)
  | .vfloat _, .vint _ => isFalse (fun e => Val.noConfusion e)
  | .vfloat _, .vlist _ => isFalse (fun e => Val.noConfusion e)
  | .vfloat _, .vdict _ => isFalse (fun e => Val.noConfusion e)
  | .vlist _, .vnull => isFalse (fun e => Val.noConfusion e)
  | .vlist _, .vstr _ => isFalse (fun e => Val.noConfusion e)
  | .vlist _, .vbool _ => isFalse (fun e => Val.noConfusion e)
  | .vlist _, .vint _ => isFalse (fun e => Val.noConfusion e)
  | .vlist _, .vfloat _ => isFalse (fun e => Val.noConfusion e)
  | .vlist _, .vdict _ => isFalse (fun e => Val.noConfusion e)
  | .vdict _, .vnull => isFalse (fun e => Val.noConfusion e)
  | .vdict _, .vstr _ => isFalse (fun e => Val.noConfusion e)
  | .vdict _, .vbool _ => isFalse (fun e => Val.noConfusion e)
  | .vdict _, .vint _ => isFalse (fun e => Val.noConfusion e)
  | .vdict _, .vfloat _ => isFalse (fun e => Val.noConfusion e)
  | .vdict _, .vlist _ => isFalse (fun e => Val.noConfusion e)

/-- Decidable equality on lists of `Val`. -/
def decEqValList : (xs ys : List Val) → Decidable (xs = ys)
  | [], [] => isTrue rfl
  | x :: xs, y :: ys =>
    match decEqVal x y, decEqValList xs ys with
    | isTrue h1, isTrue h2 => isTrue (by rw [h1, h2])
    | isFalse h1, _ => isFalse (by intro e; injection e with e1 _; exact h1 e1)
    | _, isFalse h2 => isFalse (by intro e; injection e with _ e2; exact h2 e2)
  | [], _ :: _ => isFalse (fun e => List.noConfusion e)
  | _ :: _, [] => isFalse (fun e => List.noConfusion e)

/-- Decidable equality on association lists of `Val`. -/
def decEqValDict : (m n : List (String × Val)) → Decidable (m = n)
  | [], [] => isTrue rfl
  | (k, v) :: m, (l, w) :: n =>
    match decEq k l, decEqVal v w, decEqValDict m n with
    | isTrue h1, isTrue h2, isTrue h3 => isTrue (by rw [h1, h2, h3])
    | isFalse h1, _, _ =>
      isFalse (by intro e; injection e with e1 _; injection e1 with ek _; exact h1 ek)
    | _, isFalse h2, _ =>
      isFalse (by intro e; injection e with e1 _; injection e1 with _ ev; exact h2 ev)
    | _, _, isFalse h3 => isFalse (by intro e; injection e with _ e2; exact h3 e2)
  | [], _ :: _ => isFalse (fun e => List.noConfusion e)
  | _ :: _, [] => isFalse (fun e => List.noConfusion e)

end

instance : DecidableEq Val := decEqVal

/-- Python `v in ['', None, 0]` (the filter of `clean_data`): by Python
`==`, this holds for `None`, `''`, `0`, `0.0` and `False`, and for nothing
else (lists and dicts never compare equal to those three constants). -/
def isTrivial : Val → Bool
  | .vnull => true
  | .vstr s => s = ""
  | .vbool b => b = false
  | .vint n => n = 0
  | .vfloat q => q = 0
  | .vlist _ => false
  | .vdict _ => false

/-- Python truthiness (`if not x` / `if x`) on `Val`. -/
def pyFalsy : Val → Bool
  | .vnull => true
  | .vstr s => s = ""
  | .vbool b => b = false
  | .vint n => n = 0
  | .vfloat q => q = 0
  | .vlist xs => xs.isEmpty
  | .vdict m => m.isEmpty

/-- First-occurrence association lookup: Python `d[k]` / `d.get(k)`. -/
def dget : List (String × Val) → String → Option Val
  | [], _ => none
  | kv :: m, k => if kv.1 = k then some kv.2 else dget m k

/-- Python `d[k] = v`: replace the first binding of `k` in place, else
append (a fresh key is appended at the end of the insertion order). -/
def dset : List (String × Val) → String → Val → List (String × Val)
  | [], k, v => [(k, v)]
  | kv :: m, k, v => if kv.1 = k then (k, v) :: m else kv :: dset m k v

/-- Lookup on a `Val` known to be a dict (Python `d.get(k)` where a
non-dict receiver would raise). -/
def Val.dlookup : Val → String → Option Val
  | .vdict m, k => dget m k
  | _, _ => none

mutual

/-- `clean_data` (`fattura_elettronica_parser.py` lines 158-166):
dict comprehension `{k: clean_data(v) for k, v in data.items() if v not in
['', None, 0]}`, recursive map over lists, `str.strip` on strings,
identity elsewhere.  Note that the filter tests the value *before*
cleaning it. -/
def clean_data : Val → Val
  | .vnull => .vnull
  | .vstr s => .vstr (pystrip s)
  | .vbool b => .vbool b
  | .vint n => .vint n
  | .vfloat q => .vfloat q
  | .vlist xs => .vlist (cleanList xs)
  | .vdict m => .vdict (cleanDict m)

/-- The list case of `clean_data`. -/
def cleanList : List Val → List Val
  | [] => []
  | x :: xs => clean_data x :: cleanList xs

/-- The dict-comprehension case of `clean_data`. -/
def cleanDict : List (String × Val) → List (String × Val)
  | [] => []
  | kv :: m =>
    if isTrivial kv.2 then cleanDict m
    else (kv.1, clean_data kv.2) :: cleanDict m

end

/-! ## XML element trees and ElementTree path lookup

`Elem` models an `xml.etree.ElementTree.Element`: an expanded tag (for a
document with a default namespace declaration ElementTree stores
`{uri}LocalName`, without one it stores `LocalName`), the element text
(`""` models both `None` and an empty text node, exactly the two cases
`get_text` treats as falsy) and the child list in document order. -/

inductive Elem where
  | mk (tag : String) (text : String) (children : List Elem) : Elem

/-- The expanded tag of an element. -/
def Elem.tag : Elem → String
  | .mk t _ _ => t

/-- The text of an element (`""` for Python `None`). -/
def Elem.text : Elem → String
  | .mk _ x _ => x

/-- The children of an element, in document order. -/
def Elem.children : Elem → List Elem
  | .mk _ _ c => c

mutual

/-- Decidable equality on `Elem`. -/
def decEqElem : (a b : Elem) → Decidable (a = b)
  | .mk t1 x1 c1, .mk t2 x2 c2 =>
    match decEq t1 t2, decEq x1 x2, decEqElemList c1 c2 with
    | isTrue h1, isTrue h2, isTrue h3 => isTrue (by rw [h1, h2, h3])
    | isFalse h1, _, _ => isFalse (by intro e; injection e with e1 _ _; exact h1 e1)
    | _, isFalse h2, _ => isFalse (by intro e; injection e with _ e2 _; exact h2 e2)
    | _, _, isFalse h3 => isFalse (by intro e; injection e with _ _ e3; exact h3 e3)

/-- Decidable equality on lists of `Elem`. -/
def decEqElemList : (xs ys : List Elem) → Decidable (xs = ys)
  | [], [] => isTrue rfl
  | x :: xs, y :: ys =>
    match decEqElem x y, decEqElemList xs ys with
    | isTrue h1, isTrue h2 => isTrue (by rw [h1, h2])
    | isFalse h1, _ => isFalse (by intro e; injection e with e1 _; exact h1 e1)
    | _, isFalse h2 => isFalse (by intro e; injection e with _ e2; exact h2 e2)
  | [], _ :: _ => isFalse (fun e => List.noConfusion e)
  | _ :: _, [] => isFalse (fun e => List.noConfusion e)

end

instance : DecidableEq Elem := decEqElem

mutual

/-- `e.iter()`: the subtree of `e` in document (preorder) order,
including `e` itself — ElementTree's descendant-or-self iterator. -/
def iterAll : Elem → List Elem
  | .mk t x cs => .mk t x cs :: iterAllList cs

/-- `iterAll` over a child list. -/
def iterAllList : List Elem → List Elem
  | [] => []
  | c :: cs => iterAll c ++ iterAllList cs

end

/-- One step of an ElementTree path: `child t` is a plain `t` segment,
`desc t` is a `//t` segment (`prepare_descendant`: any proper-subtree
element with the tag). -/
inductive Step where
  | child (tag : String) : Step
  | desc (tag : String) : Step
  deriving DecidableEq

/-- Apply one path step to a context node list, preserving order, exactly
like ElementTree's generator composition in `ElementPath.iterfind`. -/
def applyStep (ctx : List Elem) : Step → List Elem
  | .child t => ctx.flatMap (fun e => e.children.filter (fun c => c.tag = t))
  | .desc t => ctx.flatMap (fun e => (iterAllList e.children).filter (fun c => c.tag = t))

/-- `element.findall(path)` for the path shapes used by the source
(`A/B`, `.//A/B`, `.//A//B`, `.//A`): the path is pre-tokenized into
`Step`s (a leading `.` is the identity step). -/
def findallSteps (e : Elem) (steps : List Step) : List Elem :=
  steps.foldl applyStep [e]

/-- `element.find(path)`: first match of `findall`, `none` for Python
`None`. -/
def findSteps (e : Elem) (steps : List Step) : Option Elem :=
  (findallSteps e steps).head?

/-- `get_text` (`fattura_elettronica_parser.py` lines 136-138) for a
non-`None` receiver: `el.text.strip() if el is not None and el.text else
''`. -/
def get_text (e : Elem) (steps : List Step) : String :=
  match findSteps e steps with
  | some el => if el.text ≠ "" then pystrip el.text else ""
  | none => ""

/-! ## The simple parser (`fattura_elettronica_parser.py`) -/

/-- The namespace sniff of `parse_fattura` (lines 26-29):
`root.tag.split("}")[0].strip("{") + "}"` when the root tag starts with
`{`, else `''`.  `split("}")[0]` is the prefix before the first `}`;
`strip("{")` drops `{` from both ends; note the appended `"}"`. -/
def computeNamespace (root : Elem) : String :=
  match root.tag.data with
  | '{' :: _ =>
    ⟨stripBothChars (fun c => c = '{') (root.tag.data.takeWhile (fun c => c ≠ '}'))⟩ ++ "\x7d"
  | _ => ""

/-- The `ns` lambda of `parse_fattura` (line 31):
`f'{{{nsp}}}{tag}' if nsp else tag`, i.e. `"{" + nsp + "}" + tag` for a
non-empty sniffed namespace. -/
def nsApply (nsp : String) (tag : String) : String :=
  if nsp ≠ "" then "\x7b" ++ nsp ++ "\x7d" ++ tag else tag

/-- `extract_anagrafica` (lines 55-80): find the party section, build the
name/fiscal-code/VAT/address record, fall back to `Nome + " " + Cognome`
(stripped) when `Denominazione` is empty, and return `clean_data` of it. -/
def extract_anagrafica (root : Elem) (ns : String → String) (sectionTag : String) : Val :=
  match findSteps root [.desc (ns "FatturaElettronicaHeader"), .child (ns sectionTag)] with
  | none => .vdict []
  | some element =>
    let name0 := get_text element [.child (ns "Anagrafica"), .child (ns "Denominazione")]
    let name :=
      if name0 = "" then
        pystrip (get_text element [.child (ns "Anagrafica"), .child (ns "Nome")] ++ " " ++
          get_text element [.child (ns "Anagrafica"), .child (ns "Cognome")])
      else name0
    clean_data (.vdict
      [("name", .vstr name),
       ("fiscal_code", .vstr (get_text element [.child (ns "CodiceFiscale")])),
       ("vat_number", .vstr
         (get_text element [.child (ns "IdFiscaleIVA"), .child (ns "IdCodice")])),
       ("address", .vdict
         [("street", .vstr (get_text element [.child (ns "Sede"), .child (ns "Indirizzo")])),
          ("postal_code", .vstr (get_text element [.child (ns "Sede"), .child (ns "CAP")])),
          ("city", .vstr (get_text element [.child (ns "Sede"), .child (ns "Comune")])),
          ("province", .vstr (get_text element [.child (ns "Sede"), .child (ns "Provincia")])),
          ("country", .vstr (get_text element [.child (ns "Sede"), .child (ns "Nazione")]))])])

/-- `extract_dati_generali` (lines 82-94). -/
def extract_dati_generali (root : Elem) (ns : String → String) : Val :=
  match findSteps root [.desc (ns "FatturaElettronicaBody"), .child (ns "DatiGenerali"),
      .child (ns "DatiGeneraliDocumento")] with
  | none => .vdict []
  | some dg =>
    clean_data (.vdict
      [("type", .vstr (get_text dg [.child (ns "TipoDocumento")])),
       ("number", .vstr (get_text dg [.child (ns "Numero")])),
       ("date", .vstr (format_date (get_text dg [.child (ns "Data")]))),
       ("currency", .vstr (get_text dg [.child (ns "Divisa")])),
       ("total_amount", .vfloat (parse_float (get_text dg [.child (ns "ImportoTotaleDocumento")])))])

/-- `extract_line_items` (lines 96-110): every `DettaglioLinee` anywhere
under the body, in document order, each record cleaned. -/
def extract_line_items (root : Elem) (ns : String → String) : Val :=
  .vlist ((findallSteps root [.desc (ns "FatturaElettronicaBody"),
      .desc (ns "DettaglioLinee")]).map (fun line =>
    clean_data (.vdict
      [("line_number", .vint (parse_int (get_text line [.child (ns "NumeroLinea")]))),
       ("description", .vstr (get_text line [.child (ns "Descrizione")])),
       ("quantity", .vfloat (parse_float (get_text line [.child (ns "Quantita")]))),
       ("unit_price", .vfloat (parse_float (get_text line [.child (ns "PrezzoUnitario")]))),
       ("total_price", .vfloat (parse_float (get_text line [.child (ns "PrezzoTotale")]))),
       ("vat_rate", .vfloat (parse_float (get_text line [.child (ns "AliquotaIVA")]))),
       ("vat_nature", .vstr (get_text line [.child (ns "Natura")]))])))

/-- `extract_pagamento` (lines 112-122): empty dict when no
`DatiPagamento` element exists anywhere in the tree. -/
def extract_pagamento (root : Elem) (ns : String → String) : Val :=
  match findSteps root [.desc (ns "DatiPagamento")] with
  | none => .vdict []
  | some pagamento =>
    clean_data (.vdict
      [("method", .vstr (get_text pagamento [.child (ns "ModalitaPagamento")])),
       ("terms", .vstr (get_text pagamento [.child (ns "TerminiPagamento")])),
       ("iban", .vstr
         (get_text pagamento [.child (ns "DettaglioPagamento"), .child (ns "IBAN")]))])

/-- `extract_riepilogo_iva` (lines 124-133): note that these records are
*not* cleaned in the source. -/
def extract_riepilogo_iva (root : Elem) (ns : String → String) : Val :=
  .vlist ((findallSteps root [.desc (ns "DatiRiepilogo")]).map (fun riep =>
    .vdict
      [("rate", .vfloat (parse_float (get_text riep [.child (ns "AliquotaIVA")]))),
       ("taxable", .vfloat (parse_float (get_text riep [.child (ns "ImponibileImporto")]))),
       ("amount", .vfloat (parse_float (get_text riep [.child (ns "Imposta")])))]))

/-- `parse_fattura` (lines 20-46) on an already-parsed tree: sniff the
namespace from the root tag and assemble the per-file record
(`xmlFile` stands for `os.path.basename(xml_path)`).  The `except`
branches of the source only fire when `ET.parse` or an extractor raises;
the embedded extractors are total, so the success branch is the whole
function. -/
def parse_fattura (xmlFile : String) (root : Elem) : Val :=
  let nsp := computeNamespace root
  let ns := nsApply nsp
  .vdict
    [("xml_file", .vstr xmlFile),
     ("header", .vdict
       [("supplier", extract_anagrafica root ns "CedentePrestatore"),
        ("customer", extract_anagrafica root ns "CessionarioCommittente")]),
     ("document_data", extract_dati_generali root ns),
     ("line_items", extract_line_items root ns),
     ("payment_details", extract_pagamento root ns),
     ("tax_summary", extract_riepilogo_iva root ns)]

/-! ## Exception-transparent views of the coercers

To state totality ("no input value causes an exception to escape") the
coercers are also given in a form where the `try` body's possible Python
exception is explicit and the `except` clause is an explicit handler. -/

/-- The Python exception kinds relevant to the coercers. -/
inductive PyExc where
  | valueError : PyExc
  | typeError : PyExc
  deriving DecidableEq

/-- `float(s)` with its `ValueError` explicit. -/
def floatBuiltin (s : String) : Except PyExc ℚ :=
  match pyFloat s with
  | some q => .ok q
  | none => .error .valueError

/-- `int(s)` with its `ValueError` explicit. -/
def intBuiltin (s : String) : Except PyExc Int :=
  match pyInt s with
  | some n => .ok n
  | none => .error .valueError

/-- `datetime.strptime(s, '%Y-%m-%d')` with its `ValueError` explicit. -/
def strptimeBuiltin (s : String) : Except PyExc (Nat × Nat × Nat) :=
  match strptimeYmd s with
  | some ymd => .ok ymd
  | none => .error .valueError

/-- `parse_float` with the `try/except ValueError` structure explicit:
the body `float(value.replace(',', '.')) if value else 0.0` and a handler
that turns `ValueError` (and only `ValueError`) into `0.0`. -/
def parse_floatExc (value : String) : Except PyExc ℚ :=
  let body : Except PyExc ℚ :=
    if value = "" then .ok 0 else floatBuiltin (replaceCommaDot value)
  match body with
  | .error .valueError => .ok 0
  | r => r

/-- `parse_int` with the `try/except ValueError` structure explicit. -/
def parse_intExc (value : String) : Except PyExc Int :=
  let body : Except PyExc Int :=
    if value = "" then .ok 0 else intBuiltin value
  match body with
  | .error .valueError => .ok 0
  | r => r

/-- `format_date` with the `try/except ValueError` structure explicit. -/
def format_dateExc (date_str : String) : Except PyExc String :=
  let body : Except PyExc String :=
    match strptimeBuiltin date_str with
    | .ok (y, m, d) => .ok (isoFmt y m d)
    | .error e => .error e
  match body with
  | .error .valueError => .ok date_str
  | r => r

/-! ## The advanced parser (`fattura_elettronica_parser_advanced.py`) -/

/-- `CONFIG['data_normalization']['currency']` (line 32). -/
def CONFIG_currency : String := "EUR"

/-- `CONFIG['data_normalization']['default_vat_rate']` (line 34). -/
def CONFIG_default_vat_rate : ℚ := 22

namespace InvoiceProcessor

/-- Python `not x.get(k)` for an association list: true when the key is
absent or its value is falsy. -/
def getFalsy (m : List (String × Val)) (k : String) : Bool :=
  match dget m k with
  | some v => pyFalsy v
  | none => true

/-- `InvoiceProcessor.normalize_date` (lines 328-335): strings are
re-parsed with `strptime('%Y-%m-%d')` and re-rendered with
`strftime('%Y-%m-%d')` (the configured output format), unparseable
strings and non-strings are returned unchanged. -/
def normalize_date (v : Val) : Val :=
  match v with
  | .vstr s =>
    .vstr (match strptimeYmd s with
           | some (y, m, d) => isoFmt y m d
           | none => s)
  | x => x

/-- The per-line-item loop body of `normalize_data` (lines 321-324):
`if not item.get('vat_rate'): item['vat_rate'] = 22.0`.  Non-dict items
would raise in Python and never occur in pipeline data; they are
returned unchanged here. -/
def normalize_item (item : Val) : Val :=
  match item with
  | .vdict d =>
    if getFalsy d "vat_rate" then .vdict (dset d "vat_rate" (.vfloat CONFIG_default_vat_rate))
    else .vdict d
  | x => x

/-- `InvoiceProcessor.normalize_data` (lines 307-326): re-normalize the
document date, default the currency when falsy, default each line item's
VAT rate when falsy.  The `'document' in normalized` /
`'line_items' in normalized` guards are the outer matches; a present
key bound to a value of the wrong shape would raise in Python and never
occurs in pipeline data. -/
def normalize_data (raw : Val) : Val :=
  match raw with
  | .vdict m =>
    let m1 : List (String × Val) :=
      match dget m "document" with
      | some (.vdict d) =>
        let d1 := dset d "date" (normalize_date (match dget d "date" with
          | some v => v
          | none => .vnull))
        let d2 :=
          if getFalsy d1 "currency" then dset d1 "currency" (.vstr CONFIG_currency)
          else d1
        dset m "document" (.vdict d2)
      | _ => m
    let m2 : List (String × Val) :=
      match dget m1 "line_items" with
      | some (.vlist items) => dset m1 "line_items" (.vlist (items.map normalize_item))
      | _ => m1
    .vdict m2
  | x => x

/-- The numeric value of `item.get('total', 0)` as used by
`calculate_metrics`' sum (non-numeric values would raise in Python and
never occur in pipeline data; they count as 0 here). -/
def itemTotal (item : Val) : ℚ :=
  match item with
  | .vdict d =>
    match dget d "total" with
    | some (.vfloat q) => q
    | some (.vint n) => (n : ℚ)
    | _ => 0
  | _ => 0

/-- `InvoiceProcessor.calculate_metrics` (lines 373-380). -/
def calculate_metrics (invoice_data : Val) : Val :=
  let line_items : List Val :=
    match invoice_data.dlookup "line_items" with
    | some (.vlist xs) => xs
    | _ => []
  let taxPresent : Bool :=
    match invoice_data.dlookup "tax" with
    | some v => !pyFalsy v
    | none => false
  .vdict
    [("line_items_count", .vint line_items.length),
     ("total_gross_amount", .vfloat ((line_items.map itemTotal).sum)),
     ("vat_summary_available", .vbool taxPresent)]

/-- The observable state of one input path for `process_single`:
whether `os.path.exists` succeeds, the `os.path.getsize` result, and the
outcome of `defusedxml` parsing of the content. -/
structure FileSt where
  pathExists : Bool
  size : Nat
  parseResult : Except String Elem

/-- `ProcessingResult`: the tagged dictionaries produced by
`handle_error` (status `'error'`, with the file, error type and details)
and by the success branch of `process_single`. -/
inductive ProcessingResult where
  | error (file : String) (errorType : String) (details : String) : ProcessingResult
  | success (data : Val) (metrics : Val) : ProcessingResult
  deriving DecidableEq

/-- `InvoiceProcessor.process_single` (lines 97-128).  The section
extraction `parse_xml` is passed as a function producing either a record
or the message of the exception it raises (in the source it raises for
essentially every document because its `local-name()` XPath predicates
are unsupported by ElementTree); everything after it is embedded
concretely.  The classification cascade is: existence check, zero-size
check, XML parse, extraction/normalization, success. -/
def process_single (xml_path : String) (fs : FileSt)
    (parse_xml : Elem → Except String Val) : ProcessingResult :=
  if !fs.pathExists then .error xml_path "file_not_found" "File non trovato"
  else if fs.size = 0 then .error xml_path "empty_file" "File vuoto"
  else
    match fs.parseResult with
    | .error e => .error xml_path "xml_parsing" ("Errore parsing XML: " ++ e)
    | .ok root =>
      match parse_xml root with
      | .error e => .error xml_path "data_processing" ("Errore elaborazione dati: " ++ e)
      | .ok invoice_data =>
        let normalized_data := normalize_data invoice_data
        .success normalized_data (calculate_metrics normalized_data)

end InvoiceProcessor

/-! ## Stripped values

`strippedVal x` says every string occurring in `x` is a fixed point of
`str.strip()`; `clean_data` always produces such values. -/

mutual

/-- Every string in the value is already stripped. -/
def strippedVal : Val → Bool
  | .vstr s => pystrip s = s
  | .vlist xs => strippedList xs
  | .vdict m => strippedDict m
  | _ => true

/-- `strippedVal` over a list. -/
def strippedList : List Val → Bool
  | [] => true
  | x :: xs => strippedVal x && strippedList xs

/-- `strippedVal` over an association list. -/
def strippedDict : List (String × Val) → Bool
  | [] => true
  | kv :: m => strippedVal kv.2 && strippedDict m

end

-- Sanity checks of the coercer models on the spec's own examples.
example : parse_float "" = 0 := by decide
example : parse_float "abc" = 0 := by decide
example : parse_float "1234,56" = mkRat 123456 100 := by decide
example : (1234.56 : ℚ) = mkRat 123456 100 := by norm_num [mkRat, Rat.normalize]
example : parse_float "1.234,56" = 0 := by decide
example : parse_float "21,00" = 21 := by decide
example : parse_int "42" = 42 := by decide
example : parse_int "x" = 0 := by decide
example : format_date "2024-03-15" = "2024-03-15" := by decide
example : format_date "15/03/2024" = "15/03/2024" := by decide
example : format_date "2024-02-30" = "2024-02-30" := by decide
example : format_date "2024-3-5" = "2024-03-05" := by decide
example : InvoiceProcessor.parse_date "15/03/2024" = none := by decide

/-! ## Helper lemmas -/

theorem dropWhile_dropWhile (p : Char → Bool) (l : List Char) :
    (l.dropWhile p).dropWhile p = l.dropWhile p := by
  induction l with
  | nil => rfl
  | cons a l ih =>
    by_cases h : p a
    · simp [List.dropWhile_cons, h, ih]
    · simp [List.dropWhile_cons, h]

theorem dropWhile_append_singleton (p : Char → Bool) (a : Char) (h : p a = false)
    (l : List Char) : (l ++ [a]).dropWhile p = l.dropWhile p ++ [a] := by
  induction l with
  | nil => simp [List.dropWhile_cons, h]
  | cons x xs ih =>
    by_cases hx : p x
    · simp [List.dropWhile_cons, hx, ih]
    · simp [List.dropWhile_cons, hx]

theorem dropWhile_head_false (p : Char → Bool) (l : List Char) (a : Char) (t : List Char)
    (h : l.dropWhile p = a :: t) : p a = false := by
  induction l with
  | nil => simp at h
  | cons x xs ih =>
    rw [List.dropWhile_cons] at h
    by_cases hx : p x
    · simp [hx] at h; exact ih h
    · simp [hx] at h
      obtain ⟨h1, _⟩ := h
      rw [← h1]
      simpa using hx

theorem dropLastWhile_idem (p : Char → Bool) (t : List Char) :
    dropLastWhile p (dropLastWhile p t) = dropLastWhile p t := by
  unfold dropLastWhile
  rw [List.reverse_reverse, dropWhile_dropWhile]

theorem dropLastWhile_cons_false (p : Char → Bool) (a : Char) (h : p a = false)
    (t : List Char) : dropLastWhile p (a :: t) = a :: dropLastWhile p t := by
  unfold dropLastWhile
  rw [List.reverse_cons, dropWhile_append_singleton p a h, List.reverse_append]
  rfl

theorem stripBothChars_idem (p : Char → Bool) (l : List Char) :
    stripBothChars p (stripBothChars p l) = stripBothChars p l := by
  unfold stripBothChars
  cases hl : l.dropWhile p with
  | nil => rfl
  | cons a t =>
    have ha : p a = false := dropWhile_head_false p l a t hl
    rw [dropLastWhile_cons_false p a ha t, List.dropWhile_cons, ha]
    simp only [Bool.false_eq_true, if_false]
    rw [dropLastWhile_cons_false p a ha _, dropLastWhile_idem]

theorem pystrip_idem (s : String) : pystrip (pystrip s) = pystrip s :=
  congrArg String.mk (stripBothChars_idem pyIsSpace s.data)

theorem cleanList_eq_map (xs : List Val) : cleanList xs = xs.map clean_data := by
  induction xs with
  | nil => rfl
  | cons x xs ih => simp [cleanList, ih]

mutual

theorem strippedVal_clean : ∀ x : Val, strippedVal (clean_data x) = true
  | .vnull => rfl
  | .vstr s => by simp [clean_data, strippedVal, pystrip_idem]
  | .vbool _ => rfl
  | .vint _ => rfl
  | .vfloat _ => rfl
  | .vlist xs => by simp [clean_data, strippedVal]; exact strippedList_clean xs
  | .vdict m => by simp [clean_data, strippedVal]; exact strippedDict_clean m

theorem strippedList_clean : ∀ xs : List Val, strippedList (cleanList xs) = true
  | [] => rfl
  | x :: xs => by
    simp [cleanList, strippedList]
    exact ⟨strippedVal_clean x, strippedList_clean xs⟩

theorem strippedDict_clean : ∀ m : List (String × Val), strippedDict (cleanDict m) = true
  | [] => rfl
  | kv :: m => by
    by_cases h : isTrivial kv.2
    · simp [cleanDict, h]
      exact strippedDict_clean m
    · simp [cleanDict, h, strippedDict]
      exact ⟨strippedVal_clean kv.2, strippedDict_clean m⟩

end

theorem isTrivial_clean (v : Val) (h : strippedVal v = true) :
    isTrivial (clean_data v) = isTrivial v := by
  cases v with
  | vstr s => simp [strippedVal] at h; simp [clean_data, h]
  | vnull => rfl
  | vbool _ => rfl
  | vint _ => rfl
  | vfloat _ => rfl
  | vlist _ => rfl
  | vdict _ => rfl

mutual

theorem clean_idem_stripped : ∀ x : Val, strippedVal x = true →
    clean_data (clean_data x) = clean_data x
  | .vnull, _ => rfl
  | .vstr s, h => by
    simp [strippedVal] at h
    simp [clean_data, h, pystrip_idem]
  | .vbool _, _ => rfl
  | .vint _, _ => rfl
  | .vfloat _, _ => rfl
  | .vlist xs, h => by
    simp [strippedVal] at h
    simp [clean_data]
    exact cleanList_idem_stripped xs h
  | .vdict m, h => by
    simp [strippedVal] at h
    simp [clean_data]
    exact cleanDict_idem_stripped m h

theorem cleanList_idem_stripped : ∀ xs : List Val, strippedList xs = true →
    cleanList (cleanList xs) = cleanList xs
  | [], _ => rfl
  | x :: xs, h => by
    simp [strippedList] at h
    simp [cleanList]
    exact ⟨clean_idem_stripped x h.1, cleanList_idem_stripped xs h.2⟩

theorem cleanDict_idem_stripped : ∀ m : List (String × Val), strippedDict m = true →
    cleanDict (cleanDict m) = cleanDict m
  | [], _ => rfl
  | kv :: m, h => by
    simp [strippedDict] at h
    by_cases htr : isTrivial kv.2
    · simp [cleanDict, htr]
      exact cleanDict_idem_stripped m h.2
    · simp [cleanDict, htr, isTrivial_clean kv.2 h.1]
      exact ⟨clean_idem_stripped kv.2 h.1, cleanDict_idem_stripped m h.2⟩

end

theorem dget_cleanDict_some (m : List (String × Val)) (k : String) (v : Val)
    (h1 : dget m k = some v) (h2 : isTrivial v = false) :
    dget (cleanDict m) k = some (clean_data v) := by
  induction m with
  | nil => simp [dget] at h1
  | cons kv m ih =>
    rw [dget] at h1
    by_cases hk : kv.1 = k
    · simp [hk] at h1
      subst h1
      simp [cleanDict, h2, dget, hk]
    · simp [hk] at h1
      by_cases htr : isTrivial kv.2
      · simp [cleanDict, htr]
        exact ih h1
      · simp [cleanDict, htr, dget, hk]
        exact ih h1

theorem dget_cleanDict_none (m : List (String × Val)) (k : String)
    (h : ∀ v : Val, (k, v) ∈ m → isTrivial v = true) :
    dget (cleanDict m) k = none := by
  induction m with
  | nil => rfl
  | cons kv m ih =>
    by_cases htr : isTrivial kv.2
    · simp [cleanDict, htr]
      exact ih (fun v hv => h v (List.mem_cons_of_mem kv hv))
    · simp [cleanDict, htr, dget]
      by_cases hk : kv.1 = k
      · exfalso
        have : (k, kv.2) ∈ kv :: m := by
          rw [← hk]
          exact List.mem_cons_self kv m
        exact htr (h kv.2 this)
      · simp [hk]
        exact ih (fun v hv => h v (List.mem_cons_of_mem kv hv))

/-! ## Claim theorems -/

/-- C1, counterexample: the claim says the thousands-separated input
`"1.234,56"` coerces to the number 1234.56; in the code
`value.replace(',', '.')` turns it into the unparseable `"1.234.56"`
(two dots), so `float` raises `ValueError` and `parse_float` returns
`0.0`, which is not 1234.56. -/
theorem C1_counterexample :
    parse_float "1.234,56" = 0 ∧ (0 : ℚ) ≠ 1234.56 := by
  refine ⟨by decide, by norm_num⟩

/-- C1 (amended): `parse_float` maps the empty string to 0.0 and any
string whose comma-to-dot replacement does not parse as a float literal
to 0.0 (e.g. `"abc"`); a single-comma decimal like `"1234,56"` coerces to
1234.56; but the thousands-separated `"1.234,56"` becomes the unparseable
`"1.234.56"` and coerces to 0.0, not 1234.56. -/
theorem C1_parse_float_amended :
    parse_float "" = 0 ∧ parse_float "abc" = 0 ∧
    parse_float "1234,56" = 1234.56 ∧ parse_float "1.234,56" = 0 ∧
    ∀ s : String, s ≠ "" → pyFloat (replaceCommaDot s) = none → parse_float s = 0 := by
  refine ⟨by decide, by decide, ?_, by decide, ?_⟩
  · rw [show parse_float "1234,56" = mkRat 123456 100 from by decide]
    norm_num [mkRat, Rat.normalize]
  · intro s hs hnone
    simp [parse_float, hs, hnone]

/-- C1, witness for the amended statement at the unparseable input
`"x,y"`. -/
theorem C1_parse_float_amended_witness :
    ("x,y" : String) ≠ "" ∧ pyFloat (replaceCommaDot "x,y") = none ∧
    parse_float "x,y" = 0 :=
  ⟨by decide, by decide, C1_parse_float_amended.2.2.2.2 "x,y" (by decide) (by decide)⟩

/-- C2, counterexample: `clean_data` is not idempotent.  The dict filter
tests values *before* cleaning them, so `{"k": " "}` first cleans to
`{"k": ""}` (the raw value `" "` is not in `['', None, 0]`), and a second
pass drops the now-empty string, giving `{}`. -/
theorem C2_counterexample :
    clean_data (clean_data (.vdict [("k", .vstr " ")])) ≠
      clean_data (.vdict [("k", .vstr " ")]) := by decide

/-- C2 (amended): pruning is idempotent on every nested structure whose
strings are already whitespace-stripped (in particular on every
`clean_data` output); on a structure containing a non-empty string that
strips to empty, the second pass can drop additional dict entries. -/
theorem C2_clean_data_idem_amended (x : Val) (h : strippedVal x = true) :
    clean_data (clean_data x) = clean_data x :=
  clean_idem_stripped x h

/-- C2, witness for the amended statement on a stripped dict containing a
string, a null and a nested list. -/
theorem C2_clean_data_idem_amended_witness :
    strippedVal (.vdict [("k", .vstr "a"), ("z", .vnull), ("l", .vlist [.vint 0])]) = true ∧
    clean_data (clean_data (.vdict [("k", .vstr "a"), ("z", .vnull), ("l", .vlist [.vint 0])])) =
      clean_data (.vdict [("k", .vstr "a"), ("z", .vnull), ("l", .vlist [.vint 0])]) :=
  ⟨by decide, C2_clean_data_idem_amended _ (by decide)⟩

/-- C5, counterexample: the claim says date coercion returns the original
unparsed string on failure; `InvoiceProcessor.parse_date` (the advanced
parser, one of the two cited symbols) instead returns `None` on
`"15/03/2024"`. -/
theorem C5_counterexample :
    InvoiceProcessor.parse_date "15/03/2024" = none ∧
    (none : Option String) ≠ some "15/03/2024" :=
  ⟨by decide, by decide⟩

/-- C5 (amended): strict ISO input passes through both coercers
unchanged; on any string `strptime('%Y-%m-%d')` rejects, the simple
parser's `format_date` returns the original string unchanged while the
advanced parser's `parse_date` returns `None` (never an error in either
case). -/
theorem C5_date_coercion_amended :
    format_date "2024-03-15" = "2024-03-15" ∧
    InvoiceProcessor.parse_date "2024-03-15" = some "2024-03-15" ∧
    ∀ s : String, strptimeYmd s = none →
      format_date s = s ∧ InvoiceProcessor.parse_date s = none := by
  refine ⟨by decide, by decide, ?_⟩
  intro s h
  exact ⟨by simp [format_date, h], by simp [InvoiceProcessor.parse_date, h]⟩

/-- C5, witness for the amended statement at the rejected input
`"15/03/2024"`. -/
theorem C5_date_coercion_amended_witness :
    strptimeYmd "15/03/2024" = none ∧
    format_date "15/03/2024" = "15/03/2024" ∧
    InvoiceProcessor.parse_date "15/03/2024" = none :=
  ⟨by decide, (C5_date_coercion_amended.2.2 "15/03/2024" (by decide)).1,
    (C5_date_coercion_amended.2.2 "15/03/2024" (by decide)).2⟩

/-- C7: the three coercers are pure total functions: the
exception-transparent versions (where the `try` body's `ValueError` is
explicit and only `ValueError` is caught) return `ok` of the pure value
on every string input — no exception escapes. -/
theorem C7_coercers_total (s : String) :
    parse_floatExc s = .ok (parse_float s) ∧
    parse_intExc s = .ok (parse_int s) ∧
    format_dateExc s = .ok (format_date s) := by
  refine ⟨?_, ?_, ?_⟩
  · by_cases hs : s = ""
    · simp [parse_floatExc, parse_float, hs]
    · cases hf : pyFloat (replaceCommaDot s) <;>
        simp [parse_floatExc, parse_float, hs, floatBuiltin, hf]
  · by_cases hs : s = ""
    · simp [parse_intExc, parse_int, hs]
    · cases hi : pyInt s <;>
        simp [parse_intExc, parse_int, hs, intBuiltin, hi]
  · cases hd : strptimeYmd s with
    | none => simp [format_dateExc, format_date, strptimeBuiltin, hd]
    | some ymd =>
      obtain ⟨y, m, d⟩ := ymd
      simp [format_dateExc, format_date, strptimeBuiltin, hd]

/-- C10: pruning never removes elements from sequences: `clean_data` on a
list is exactly the elementwise map of `clean_data`, so the length and
the order are preserved and empty/null/zero elements survive. -/
theorem C10_clean_data_list_map (xs : List Val) :
    clean_data (.vlist xs) = .vlist (xs.map clean_data) ∧
    (xs.map clean_data).length = xs.length := by
  exact ⟨by simp [clean_data, cleanList_eq_map], by simp⟩

/-- C4: the per-file driver `process_single` is total (this embedding is
a function) and classifies every input into exactly one tagged terminal
result, in cascade order: missing path, then zero-size file, then
ill-formed XML, then extraction/normalization failure, then success with
the normalized record and its metrics; the `empty_file` kind is distinct
from the malformed-XML kind `xml_parsing`. -/
theorem C4_process_single_classification (xml_path : String)
    (fs : InvoiceProcessor.FileSt) (px : Elem → Except String Val) :
    (fs.pathExists = false →
      InvoiceProcessor.process_single xml_path fs px =
        .error xml_path "file_not_found" "File non trovato") ∧
    (fs.pathExists = true → fs.size = 0 →
      InvoiceProcessor.process_single xml_path fs px =
        .error xml_path "empty_file" "File vuoto") ∧
    (∀ e : String, fs.pathExists = true → fs.size ≠ 0 → fs.parseResult = .error e →
      InvoiceProcessor.process_single xml_path fs px =
        .error xml_path "xml_parsing" ("Errore parsing XML: " ++ e)) ∧
    (∀ (root : Elem) (e : String), fs.pathExists = true → fs.size ≠ 0 →
      fs.parseResult = .ok root → px root = .error e →
      InvoiceProcessor.process_single xml_path fs px =
        .error xml_path "data_processing" ("Errore elaborazione dati: " ++ e)) ∧
    (∀ (root : Elem) (d : Val), fs.pathExists = true → fs.size ≠ 0 →
      fs.parseResult = .ok root → px root = .ok d →
      InvoiceProcessor.process_single xml_path fs px =
        .success (InvoiceProcessor.normalize_data d)
          (InvoiceProcessor.calculate_metrics (InvoiceProcessor.normalize_data d))) ∧
    ("empty_file" : String) ≠ "xml_parsing" := by
  refine ⟨?_, ?_, ?_, ?_, ?_, by decide⟩
  · intro h
    simp [InvoiceProcessor.process_single, h]
  · intro h1 h2
    simp [InvoiceProcessor.process_single, h1, h2]
  · intro e h1 h2 h3
    simp [InvoiceProcessor.process_single, h1, h2, h3]
  · intro root e h1 h2 h3 h4
    simp [InvoiceProcessor.process_single, h1, h2, h3, h4]
  · intro root d h1 h2 h3 h4
    simp [InvoiceProcessor.process_single, h1, h2, h3, h4]

/-- C4, witness: a path that exists with a 0-byte file is classified
`empty_file` (not `xml_parsing`), regardless of the parse outcome. -/
theorem C4_process_single_classification_witness :
    (InvoiceProcessor.FileSt.mk true 0 (.error "no element found")).pathExists = true ∧
    (InvoiceProcessor.FileSt.mk true 0 (.error "no element found")).size = 0 ∧
    InvoiceProcessor.process_single "vuoto.xml"
      (InvoiceProcessor.FileSt.mk true 0 (.error "no element found"))
      (fun _ => .ok .vnull) =
      .error "vuoto.xml" "empty_file" "File vuoto" :=
  ⟨rfl, rfl,
    (C4_process_single_classification "vuoto.xml"
      (InvoiceProcessor.FileSt.mk true 0 (.error "no element found"))
      (fun _ => .ok .vnull)).2.1 rfl rfl⟩

/-- C6: the assembled record always carries the `payment_details` key,
and whenever the document has no `DatiPagamento` element anywhere (the
optional payment section is absent) that key holds the empty sub-record
`{}` — extraction is total, so no error is produced. -/
theorem C6_missing_payment_empty (xmlFile : String) (root : Elem) :
    (∃ v : Val, (parse_fattura xmlFile root).dlookup "payment_details" = some v) ∧
    (findSteps root [.desc (nsApply (computeNamespace root) "DatiPagamento")] = none →
      (parse_fattura xmlFile root).dlookup "payment_details" = some (.vdict [])) := by
  constructor
  · exact ⟨extract_pagamento root (nsApply (computeNamespace root)),
      by simp [parse_fattura, Val.dlookup, dget]⟩
  · intro h
    simp [parse_fattura, Val.dlookup, dget, extract_pagamento, h]

/-- C6, witness: a minimal document with no payment block yields a record
whose `payment_details` entry is the empty dict. -/
theorem C6_missing_payment_empty_witness :
    findSteps (Elem.mk "FatturaElettronica" "" [Elem.mk "FatturaElettronicaBody" "" []])
      [.desc (nsApply (computeNamespace
        (Elem.mk "FatturaElettronica" "" [Elem.mk "FatturaElettronicaBody" "" []]))
        "DatiPagamento")] = none ∧
    (parse_fattura "f.xml"
      (Elem.mk "FatturaElettronica" "" [Elem.mk "FatturaElettronicaBody" "" []])).dlookup
      "payment_details" = some (.vdict []) :=
  ⟨by decide,
    (C6_missing_payment_empty "f.xml"
      (Elem.mk "FatturaElettronica" "" [Elem.mk "FatturaElettronicaBody" "" []])).2 (by decide)⟩

/-- C8: on a record of the shape produced by `parse_xml` (with the
document sub-dict of the shape produced by `parse_document` and whose
date value is a fixed point of `normalize_date`, as every
`parse_date` output is), `normalize_data` sets the currency to the
configured default `"EUR"` exactly when the extracted currency is falsy
(absent/empty), rewrites each line item by the vat-rate rule and leaves
every other field unchanged; and the vat-rate rule sets a line item's
`vat_rate` to the configured default 22.0 exactly when the extracted
value is falsy (absent or zero), leaving the item's other fields
unchanged. -/
theorem C8_normalize_data_spec (hd pay tax ty num dt cur tot : Val) (items : List Val)
    (hdt : InvoiceProcessor.normalize_date dt = dt) :
    InvoiceProcessor.normalize_data (.vdict
      [("header", hd),
       ("document", .vdict
         [("type", ty), ("number", num), ("date", dt), ("currency", cur), ("total", tot)]),
       ("line_items", .vlist items),
       ("payment", pay),
       ("tax", tax)]) =
    .vdict
      [("header", hd),
       ("document", .vdict
         [("type", ty), ("number", num), ("date", dt),
          ("currency", if pyFalsy cur then .vstr CONFIG_currency else cur),
          ("total", tot)]),
       ("line_items", .vlist (items.map InvoiceProcessor.normalize_item)),
       ("payment", pay),
       ("tax", tax)] ∧
    ∀ ln de qt pr tt vr : Val,
      InvoiceProcessor.normalize_item (.vdict
        [("line_number", ln), ("description", de), ("quantity", qt),
         ("price", pr), ("total", tt), ("vat_rate", vr)]) =
      .vdict
        [("line_number", ln), ("description", de), ("quantity", qt),
         ("price", pr), ("total", tt),
         ("vat_rate", if pyFalsy vr then .vfloat CONFIG_default_vat_rate else vr)] := by
  constructor
  · by_cases hc : pyFalsy cur <;>
      simp [InvoiceProcessor.normalize_data, InvoiceProcessor.getFalsy, dget, dset, hdt, hc]
  · intro ln de qt pr tt vr
    by_cases hv : pyFalsy vr <;>
      simp [InvoiceProcessor.normalize_item, InvoiceProcessor.getFalsy, dget, dset, hv]

/-- C8, witness: a concrete extracted record with empty currency and a
zero vat-rate line item gets exactly the two configured defaults. -/
theorem C8_normalize_data_spec_witness :
    InvoiceProcessor.normalize_date (.vstr "2024-03-15") = .vstr "2024-03-15" ∧
    InvoiceProcessor.normalize_data (.vdict
      [("header", .vdict []),
       ("document", .vdict
         [("type", .vstr "TD01"), ("number", .vstr "7"), ("date", .vstr "2024-03-15"),
          ("currency", .vstr ""), ("total", .vfloat 21)]),
       ("line_items", .vlist
         [.vdict [("line_number", .vint 1), ("description", .vstr "widget"),
                  ("quantity", .vfloat 2), ("price", .vfloat 1), ("total", .vfloat 2),
                  ("vat_rate", .vfloat 0)]]),
       ("payment", .vdict []),
       ("tax", .vdict [])]) =
    .vdict
      [("header", .vdict []),
       ("document", .vdict
         [("type", .vstr "TD01"), ("number", .vstr "7"), ("date", .vstr "2024-03-15"),
          ("currency", .vstr "EUR"), ("total", .vfloat 21)]),
       ("line_items", .vlist
         [.vdict [("line_number", .vint 1), ("description", .vstr "widget"),
                  ("quantity", .vfloat 2), ("price", .vfloat 1), ("total", .vfloat 2),
                  ("vat_rate", .vfloat 22)]]),
       ("payment", .vdict []),
       ("tax", .vdict [])] := by
  have h := C8_normalize_data_spec (.vdict []) (.vdict []) (.vdict [])
    (.vstr "TD01") (.vstr "7") (.vstr "2024-03-15") (.vstr "") (.vfloat 21)
    [.vdict [("line_number", .vint 1), ("description", .vstr "widget"),
             ("quantity", .vfloat 2), ("price", .vfloat 1), ("total", .vfloat 2),
             ("vat_rate", .vfloat 0)]]
    (by decide)
  refine ⟨by decide, ?_⟩
  rw [h.1]
  decide

/-- C9, counterexample: the claim says pruning is applied only later at
assembly time, not inside the extractor.  On a found party section whose
fields are all empty, `extract_anagrafica` itself returns the already
pruned record `{"address": {}}` — the `name`/`fiscal_code`/`vat_number`
keys it builds are gone before any assembly step runs, because the
extractor ends with `clean_data(anagrafica)`. -/
theorem C9_counterexample :
    extract_anagrafica
      (.mk "FatturaElettronica" ""
        [.mk "FatturaElettronicaHeader" "" [.mk "CedentePrestatore" "" []]])
      (nsApply (computeNamespace
        (.mk "FatturaElettronica" ""
          [.mk "FatturaElettronicaHeader" "" [.mk "CedentePrestatore" "" []]])))
      "CedentePrestatore" = .vdict [("address", .vdict [])] := by decide

/-- C9 (amended): when the party section is found, the extractor derives
the name from `Denominazione` when non-empty, else joins `Nome` and
`Cognome` with one space and strips; the returned record always carries
an `address` sub-object (even when every address field is empty); but the
record is pruned by `clean_data` *inside* the extractor (so an empty
derived name is already absent from its output), not later at assembly
time. -/
theorem C9_extract_anagrafica_amended (root el : Elem) (ns : String → String)
    (sectionTag : String)
    (h : findSteps root [.desc (ns "FatturaElettronicaHeader"),
        .child (ns sectionTag)] = some el) :
    (let denom := get_text el [.child (ns "Anagrafica"), .child (ns "Denominazione")]
     let joined := pystrip (get_text el [.child (ns "Anagrafica"), .child (ns "Nome")] ++ " " ++
       get_text el [.child (ns "Anagrafica"), .child (ns "Cognome")])
     let nameVal := if denom = "" then joined else denom
     (extract_anagrafica root ns sectionTag).dlookup "name" =
       if nameVal = "" then none else some (.vstr (pystrip nameVal))) ∧
    (∃ a : Val, (extract_anagrafica root ns sectionTag).dlookup "address" = some a) := by
  constructor
  · simp only [extract_anagrafica, h, clean_data, Val.dlookup]
    by_cases hn :
        (if get_text el [.child (ns "Anagrafica"), .child (ns "Denominazione")] = "" then
          pystrip (get_text el [.child (ns "Anagrafica"), .child (ns "Nome")] ++ " " ++
            get_text el [.child (ns "Anagrafica"), .child (ns "Cognome")])
        else get_text el [.child (ns "Anagrafica"), .child (ns "Denominazione")]) = ""
    · rw [hn]
      simp only [if_pos rfl]
      apply dget_cleanDict_none
      intro v hv
      simp at hv
      rw [hv]
      decide
    · rw [if_neg hn]
      have hget :
          dget [("name", Val.vstr (if get_text el [.child (ns "Anagrafica"),
              .child (ns "Denominazione")] = "" then
            pystrip (get_text el [.child (ns "Anagrafica"), .child (ns "Nome")] ++ " " ++
              get_text el [.child (ns "Anagrafica"), .child (ns "Cognome")])
          else get_text el [.child (ns "Anagrafica"), .child (ns "Denominazione")])),
          ("fiscal_code", Val.vstr (get_text el [.child (ns "CodiceFiscale")])),
          ("vat_number", Val.vstr
            (get_text el [.child (ns "IdFiscaleIVA"), .child (ns "IdCodice")])),
          ("address", Val.vdict
            [("street", Val.vstr (get_text el [.child (ns "Sede"), .child (ns "Indirizzo")])),
             ("postal_code", Val.vstr (get_text el [.child (ns "Sede"), .child (ns "CAP")])),
             ("city", Val.vstr (get_text el [.child (ns "Sede"), .child (ns "Comune")])),
             ("province", Val.vstr (get_text el [.child (ns "Sede"), .child (ns "Provincia")])),
             ("country", Val.vstr (get_text el [.child (ns "Sede"),
               .child (ns "Nazione")]))])] "name" = some (Val.vstr
            (if get_text el [.child (ns "Anagrafica"), .child (ns "Denominazione")] = "" then
              pystrip (get_text el [.child (ns "Anagrafica"), .child (ns "Nome")] ++ " " ++
                get_text el [.child (ns "Anagrafica"), .child (ns "Cognome")])
            else get_text el [.child (ns "Anagrafica"), .child (ns "Denominazione")])) := by
        simp [dget]
      rw [dget_cleanDict_some _ _ _ hget (by simpa [isTrivial] using hn)]
      rfl
  · simp only [extract_anagrafica, h, clean_data, Val.dlookup]
    have hg : dget [("name", Val.vstr (if get_text el [Step.child (ns "Anagrafica"),
            Step.child (ns "Denominazione")] = "" then
          pystrip (get_text el [Step.child (ns "Anagrafica"), Step.child (ns "Nome")] ++ " " ++
            get_text el [Step.child (ns "Anagrafica"), Step.child (ns "Cognome")])
        else get_text el [Step.child (ns "Anagrafica"), Step.child (ns "Denominazione")])),
        ("fiscal_code", Val.vstr (get_text el [Step.child (ns "CodiceFiscale")])),
        ("vat_number", Val.vstr
          (get_text el [Step.child (ns "IdFiscaleIVA"), Step.child (ns "IdCodice")])),
        ("address", Val.vdict
          [("street", Val.vstr (get_text el [Step.child (ns "Sede"),
             Step.child (ns "Indirizzo")])),
           ("postal_code", Val.vstr (get_text el [Step.child (ns "Sede"),
             Step.child (ns "CAP")])),
           ("city", Val.vstr (get_text el [Step.child (ns "Sede"),
             Step.child (ns "Comune")])),
           ("province", Val.vstr (get_text el [Step.child (ns "Sede"),
             Step.child (ns "Provincia")])),
           ("country", Val.vstr (get_text el [Step.child (ns "Sede"),
             Step.child (ns "Nazione")]))])] "address" =
        some (Val.vdict
          [("street", Val.vstr (get_text el [Step.child (ns "Sede"),
             Step.child (ns "Indirizzo")])),
           ("postal_code", Val.vstr (get_text el [Step.child (ns "Sede"),
             Step.child (ns "CAP")])),
           ("city", Val.vstr (get_text el [Step.child (ns "Sede"),
             Step.child (ns "Comune")])),
           ("province", Val.vstr (get_text el [Step.child (ns "Sede"),
             Step.child (ns "Provincia")])),
           ("country", Val.vstr (get_text el [Step.child (ns "Sede"),
             Step.child (ns "Nazione")]))]) := by
      simp [dget]
    exact ⟨_, dget_cleanDict_some _ "address" _ hg rfl⟩

/-- C9, witness: a found party section with `Denominazione` "Acme Srl"
yields a pruned record whose name is "Acme Srl" and whose address entry
is present. -/
theorem C9_extract_anagrafica_amended_witness :
    findSteps
      (Elem.mk "FatturaElettronica" ""
        [Elem.mk "FatturaElettronicaHeader" ""
          [Elem.mk "CedentePrestatore" ""
            [Elem.mk "Anagrafica" "" [Elem.mk "Denominazione" "Acme Srl" []]]]])
      [.desc (nsApply "" "FatturaElettronicaHeader"), .child (nsApply "" "CedentePrestatore")] =
      some (Elem.mk "CedentePrestatore" ""
        [Elem.mk "Anagrafica" "" [Elem.mk "Denominazione" "Acme Srl" []]]) ∧
    (extract_anagrafica
      (Elem.mk "FatturaElettronica" ""
        [Elem.mk "FatturaElettronicaHeader" ""
          [Elem.mk "CedentePrestatore" ""
            [Elem.mk "Anagrafica" "" [Elem.mk "Denominazione" "Acme Srl" []]]]])
      (nsApply "") "CedentePrestatore").dlookup "name" = some (.vstr "Acme Srl") ∧
    (∃ a : Val, (extract_anagrafica
      (Elem.mk "FatturaElettronica" ""
        [Elem.mk "FatturaElettronicaHeader" ""
          [Elem.mk "CedentePrestatore" ""
            [Elem.mk "Anagrafica" "" [Elem.mk "Denominazione" "Acme Srl" []]]]])
      (nsApply "") "CedentePrestatore").dlookup "address" = some a) := by
  have h := C9_extract_anagrafica_amended
    (Elem.mk "FatturaElettronica" ""
      [Elem.mk "FatturaElettronicaHeader" ""
        [Elem.mk "CedentePrestatore" ""
          [Elem.mk "Anagrafica" "" [Elem.mk "Denominazione" "Acme Srl" []]]]])
    (Elem.mk "CedentePrestatore" ""
      [Elem.mk "Anagrafica" "" [Elem.mk "Denominazione" "Acme Srl" []]])
    (nsApply "") "CedentePrestatore" (by decide)
  refine ⟨by decide, ?_, h.2⟩
  have h1 := h.1
  simp only at h1
  rw [h1]
  decide

/-- The logical sample document without a namespace declaration:
ElementTree stores plain local tags. -/
def plainSample : Elem :=
  .mk "FatturaElettronica" ""
    [.mk "FatturaElettronicaHeader" ""
      [.mk "CedentePrestatore" ""
        [.mk "Anagrafica" "" [.mk "Denominazione" "Acme Srl" []]]]]

/-- The identical logical document with a declared namespace `u`:
ElementTree stores every tag in `{u}Local` form. -/
def nsSample : Elem :=
  .mk "{u}FatturaElettronica" ""
    [.mk "{u}FatturaElettronicaHeader" ""
      [.mk "{u}CedentePrestatore" ""
        [.mk "{u}Anagrafica" "" [.mk "{u}Denominazione" "Acme Srl" []]]]]

/-- C3: namespace tolerance fails in the code.  The sniff stores
`namespace = "u}"` (it appends `"}"`), and the `ns` lambda then produces
`"{" + "u}" + "}" + tag = "{u}}tag"` — a tag with a doubled closing brace
that matches no element, so on the namespaced variant of the document
every lookup fails and `parse_fattura` returns a record with all sections
empty, different from the record extracted from the namespace-free
variant of the same logical document. -/
theorem C3_namespace_bug :
    nsApply (computeNamespace nsSample) "FatturaElettronicaHeader" =
      "\x7bu\x7d\x7dFatturaElettronicaHeader" ∧
    parse_fattura "f.xml" nsSample =
      .vdict
        [("xml_file", .vstr "f.xml"),
         ("header", .vdict [("supplier", .vdict []), ("customer", .vdict [])]),
         ("document_data", .vdict []),
         ("line_items", .vlist []),
         ("payment_details", .vdict []),
         ("tax_summary", .vlist [])] ∧
    parse_fattura "f.xml" plainSample =
      .vdict
        [("xml_file", .vstr "f.xml"),
         ("header", .vdict
           [("supplier", .vdict [("name", .vstr "Acme Srl"), ("address", .vdict [])]),
            ("customer", .vdict [])]),
         ("document_data", .vdict []),
         ("line_items", .vlist []),
         ("payment_details", .vdict []),
         ("tax_summary", .vlist [])] ∧
    parse_fattura "f.xml" nsSample ≠ parse_fattura "f.xml" plainSample :=
  ⟨by decide, by decide, by decide, by decide⟩
